import Mathlib

/-!
Shallow embedding of `src/gitlab_course_manager/manager.py` from the
GitLab-Course-Manager repository, together with theorems checking the
natural-language specification against it.

Conventions of the embedding:
* Python dictionaries returned by the configuration accessors become Lean
  structures; a raised exception becomes `Except.error`.
* The parsed settings file (`configparser` result) is a list of sections,
  each a list of key/value pairs.
* The GitLab server is an external collaborator: listings (subgroups,
  projects, users) and per-project repository state are passed in as data,
  and every REST creation call the code issues is recorded in an `ApiCall`
  trace that also records whether the call was made with
  `retry_transient_errors = True`.
* Git commits are records of (tree, parent ids, author, committer,
  message); a git object id is a content hash, so two commits share an
  object id exactly when their recorded content coincides (hash collisions
  and timestamps are abstracted away: the model treats the hash as
  injective on content).
-/

namespace GCM

/-- Predicate `mentions m sub`: the string `sub` occurs verbatim inside `m`.
Used to state that an error message names a key, section, path or student. -/
def mentions (m sub : String) : Prop := ∃ a b, m = a ++ (sub ++ b)

/-! ## Roster rows and the derived names

`_get_student_firstname`/`_get_student_lastname`/`_get_student_username`
read the `First Name`, `Last Name` and `Username` columns of a roster row;
the row is embedded as a structure with those three fields. -/

structure Student where
  firstName : String
  lastName : String
  username : String
deriving DecidableEq, Repr

def _get_student_firstname (s : Student) : String := s.firstName

def _get_student_lastname (s : Student) : String := s.lastName

def _get_student_username (s : Student) : String := s.username

/-- Embeds `_get_student_groupname = lambda s : _get_student_firstname(s) + " " + _get_student_lastname(s)` -/
def _get_student_groupname (s : Student) : String :=
  _get_student_firstname s ++ " " ++ _get_student_lastname s

/-- Python `str.replace(old, new)` for a single-character pattern: replace
every occurrence of the character. -/
def pyReplaceChar (old new : Char) (s : String) : String :=
  String.mk (s.data.map (fun c => if c = old then new else c))

/-- Python `str.lower()` (ASCII fragment, which is all the code feeds it). -/
def pyLower (s : String) : String :=
  String.mk (s.data.map Char.toLower)

/-- Embeds `_get_student_grouppath = lambda s : f"{first}-{last}".replace(' ', '-').lower()` -/
def _get_student_grouppath (s : Student) : String :=
  pyLower (pyReplaceChar ' ' '-'
    ((_get_student_firstname s) ++ "-" ++ (_get_student_lastname s)))

/-! ## Python exceptions -/

inductive PyError where
  /-- Raised as `NameError: name '<n>' is not defined` when evaluating an f-string that
  references an undefined variable. -/
  | nameError (n : String)
  | runtimeError (msg : String)
  | valueError (msg : String)
deriving DecidableEq, Repr

/-! ## The settings file (`configparser` model) -/

/-- A parsed `settings.ini`: sections, each holding key/value entries. -/
structure IniFile where
  sections : List (String × List (String × String))
deriving DecidableEq, Repr

def IniFile.getSection (c : IniFile) (s : String) : Option (List (String × String)) :=
  (c.sections.find? (fun p => p.1 == s)).map (fun p => p.2)

def IniFile.hasSection (c : IniFile) (s : String) : Bool :=
  (c.getSection s).isSome

def secHasKey (sec : List (String × String)) (k : String) : Bool :=
  sec.any (fun p => p.1 == k)

def secGet (sec : List (String × String)) (k : String) : String :=
  ((sec.find? (fun p => p.1 == k)).map (fun p => p.2)).getD ""

/-- Message of `_check_config_section_exists`:
`f"File {f} must contain a section '[{s}]'"`. -/
def sectionErrMsg (f s : String) : String :=
  "File " ++ (f ++ (" must contain a section \x27[" ++ (s ++ "]\x27")))

/-- Message of `_check_config_key_exists`:
`f"File {f} must contain an entry '{k}' in section '[{s}]'"` where the `s`
interpolated is the `configparser.SectionProxy`, whose `str()` is
`<Section: name>`. -/
def keyErrMsg (f k secName : String) : String :=
  "File " ++ (f ++ (" must contain an entry \x27" ++
    (k ++ ("\x27 in section \x27[<Section: " ++ (secName ++ ">]\x27")))))

/-! ## Python `int()` on strings

`_get_groups_info` calls `int(...)` on the raw config values; `int` strips
surrounding whitespace, accepts an optional sign, and digits with single
underscores strictly between digits; anything else raises `ValueError`. -/

/-- Digit run with optional single underscores between digits, accumulating
the value; the first character has already been checked to be a digit. -/
def pyDigitsAux : Nat → List Char → Option Nat
  | acc, [] => some acc
  | acc, '_' :: d :: rest =>
      if d.isDigit then pyDigitsAux (acc * 10 + (d.toNat - 48)) rest else none
  | _, ['_'] => none
  | acc, d :: rest =>
      if d.isDigit then pyDigitsAux (acc * 10 + (d.toNat - 48)) rest else none

def pyDigits : List Char → Option Nat
  | [] => none
  | d :: rest => if d.isDigit then pyDigitsAux (d.toNat - 48) rest else none

/-- ASCII whitespace, as `int()` strips it. -/
def isPyWs (c : Char) : Bool :=
  c == ' ' || c == '\t' || c == '\n' || c == '\r' || c == '\x0b' || c == '\x0c'

/-- Strip leading and trailing whitespace from a character list. -/
def stripWs (cs : List Char) : List Char :=
  (((cs.dropWhile isPyWs).reverse).dropWhile isPyWs).reverse

/-- Python `int(s)` for base 10, returning `none` where Python raises
`ValueError`. -/
def pyInt (s : String) : Option Int :=
  match stripWs s.data with
  | '+' :: cs => (pyDigits cs).map (fun n => (n : Int))
  | '-' :: cs => (pyDigits cs).map (fun n => -(n : Int))
  | cs => (pyDigits cs).map (fun n => (n : Int))

/-- Message of the `ValueError` raised by `int()` on a non-numeric string. -/
def intErrMsg (v : String) : String :=
  "invalid literal for int() with base 10: \x27" ++ (v ++ "\x27")

/-! ## Configuration Resolver accessors

Each accessor parses the settings file, checks its required section and
keys in the order the code does, and returns the typed dictionary; a
missing section or key becomes `Except.error` with the exact message the
`ValueError` carries.  The accessors are pure functions of the parsed file:
they perform no network call. -/

structure AuthInfo where
  url : String
  pa_token : String
  ssh_path : String
  ssh_type : String
deriving DecidableEq, Repr

def _get_auth_info (c : IniFile) (f : String) : Except String AuthInfo :=
  match c.getSection "auth" with
  | none => .error (sectionErrMsg f "auth")
  | some setup =>
    if !secHasKey setup "url" then .error (keyErrMsg f "url" "auth")
    else if !secHasKey setup "pa_token" then .error (keyErrMsg f "pa_token" "auth")
    else if !secHasKey setup "ssh_path" then .error (keyErrMsg f "ssh_path" "auth")
    else if !secHasKey setup "ssh_type" then .error (keyErrMsg f "ssh_type" "auth")
    else .ok { url := secGet setup "url", pa_token := secGet setup "pa_token",
               ssh_path := secGet setup "ssh_path", ssh_type := secGet setup "ssh_type" }

structure GroupsInfo where
  student_group_id : Int
  template_group_id : Int
deriving DecidableEq, Repr

def _get_groups_info (c : IniFile) (f : String) : Except String GroupsInfo :=
  match c.getSection "groups" with
  | none => .error (sectionErrMsg f "groups")
  | some group_set =>
    if !secHasKey group_set "student_group_id" then
      .error (keyErrMsg f "student_group_id" "groups")
    else if !secHasKey group_set "template_group_id" then
      .error (keyErrMsg f "template_group_id" "groups")
    else
      match pyInt (secGet group_set "student_group_id") with
      | none => .error (intErrMsg (secGet group_set "student_group_id"))
      | some sid =>
        match pyInt (secGet group_set "template_group_id") with
        | none => .error (intErrMsg (secGet group_set "template_group_id"))
        | some tid => .ok { student_group_id := sid, template_group_id := tid }

structure CourseInfo where
  roster : String
deriving DecidableEq, Repr

def _get_course_info (c : IniFile) (f : String) : Except String CourseInfo :=
  match c.getSection "course" with
  | none => .error (sectionErrMsg f "course")
  | some course_set =>
    if !secHasKey course_set "roster" then .error (keyErrMsg f "roster" "course")
    else .ok { roster := secGet course_set "roster" }

/-- Note: the code returns `{'runner_id' : grader_set['runner_id']}` — the
raw string, with no `int(...)` around it. -/
structure GraderInfo where
  runner_id : String
deriving DecidableEq, Repr

def _get_grader_info (c : IniFile) (f : String) : Except String GraderInfo :=
  match c.getSection "grader" with
  | none => .error (sectionErrMsg f "grader")
  | some grader_set =>
    if !secHasKey grader_set "runner_id" then .error (keyErrMsg f "runner_id" "grader")
    else .ok { runner_id := secGet grader_set "runner_id" }

/-! ## Platform entities and lookups -/

/-- A subgroup of the top-level student group, as returned by
`subgroups.list(all=True)`. -/
structure Subgroup where
  name : String
  id : Nat
deriving DecidableEq, Repr

/-- A user as returned by `gl.users.list(search=...)`. -/
structure User where
  username : String
  id : Nat
deriving DecidableEq, Repr

/-- A project inside a student subgroup, as returned by
`projects.list(all=True)`. -/
structure Project where
  id : Nat
  path : String
deriving DecidableEq, Repr

/-- Embeds `_get_student_group`: scan the subgroup listing for the first subgroup
whose `name` equals the student's derived group name (exact `==`); raise
`RuntimeError(f"Was unable to find group for student {name}")` if none
matches.  Returns the matched subgroup's id (the code then fetches the
group object for that id). -/
def _get_student_group (student_groups : List Subgroup) (student : Student) :
    Except PyError Nat :=
  match student_groups.find? (fun g => g.name == _get_student_groupname student) with
  | some g => .ok g.id
  | none => .error (.runtimeError
      ("Was unable to find group for student " ++ _get_student_groupname student))

/-- Embeds `_get_student_user_id`: scan the search results for the first user whose
`username` equals the student's username exactly.  The failure branch is
`raise ValueError(f"Could not find username for {_get_student_firstname(s)} ...")`
but `s` is not defined in that scope (the parameter is `student`), so
evaluating the f-string raises `NameError: name 's' is not defined` before
the `ValueError` is ever constructed. -/
def _get_student_user_id (user : List User) (student : Student) :
    Except PyError Nat :=
  match user.find? (fun u => u.username == _get_student_username student) with
  | some u => .ok u.id
  | none => .error (.nameError "s")

/-! ## REST creation calls

Every creation call the code issues is recorded with its payload and with
whether `retry_transient_errors = True` was passed. -/

inductive ApiCall where
  /-- Call `gl.groups.create({name, visibility, path, parent_id}, retry_transient_errors = True)` -/
  | groupsCreate (name visibility path : String) (parentId : Int) (retry : Bool)
  /-- Call `group.members.create({username, access_level, user_id}, retry_transient_errors = True)` -/
  | membersCreate (username : String) (accessLevel : Nat) (userId : Nat) (retry : Bool)
  /-- Call `gl.projects.create({name, namespace_id})` — no retry argument. -/
  | projectsCreate (name : String) (namespaceId : Nat) (retry : Bool)
  /-- Call `proj.runners.create({runner_id})` — no retry argument. -/
  | runnersCreate (runnerId : String) (retry : Bool)
deriving DecidableEq, Repr

def ApiCall.retryEnabled : ApiCall → Bool
  | .groupsCreate _ _ _ _ r => r
  | .membersCreate _ _ _ r => r
  | .projectsCreate _ _ r => r
  | .runnersCreate _ r => r

/-- Embeds `make_student_groups`: for each roster row in order, create the
student's group (with retry), then build the membership payload — whose
`user_id` entry calls `_get_student_user_id` — and create the membership
(with retry).  There is no exception handling in the loop, so a failed user
lookup aborts the batch right after that student's group creation.
`search` models `gl.users.list(search = username)`. -/
def make_student_groups (search : String → List User) (parentId : Int)
    (accessLevel : Nat) : List Student → List ApiCall × Except PyError Unit
  | [] => ([], .ok ())
  | student :: rest =>
    let c1 := ApiCall.groupsCreate (_get_student_groupname student) "private"
      (_get_student_grouppath student) parentId true
    match _get_student_user_id (search (_get_student_username student)) student with
    | .error e => ([c1], .error e)
    | .ok uid =>
      let c2 := ApiCall.membersCreate (_get_student_username student) accessLevel uid true
      let (cs, r) := make_student_groups search parentId accessLevel rest
      (c1 :: c2 :: cs, r)

/-! ## Git objects -/

/-- Identity returned by `_get_git_commit_signature` — fixed and hard-coded. -/
structure Signature where
  name : String
  email : String
deriving DecidableEq, Repr

def _get_git_commit_signature : Signature :=
  { name := "Connor Fuhrman", email := "connorfuhrman@email.arizona.edu" }

/-- A git commit: tree object, parent commit ids, author, committer,
message.  A git object id is a content hash, so commits share an object id
exactly when this record coincides (the hash is modelled as injective). -/
structure Commit where
  tree : String
  parents : List Nat
  author : Signature
  committer : Signature
  message : String
deriving DecidableEq, Repr

/-! ## Repository Fan-out Engine -/

/-- The per-student project created by `create_student_assignment`,
together with the history pushed to it: the code deletes the clone's
`.git`, re-initializes, stages everything, and pushes a single root
commit. -/
structure CreatedAssignment where
  groupId : Nat
  projName : String
  pushedCommits : List Commit
deriving DecidableEq, Repr

/-- The message of the root commit:
`f"Initial commit for assignment '{proj_name}' for student {group_name}"`. -/
def initialCommitMsg (projName groupName : String) : String :=
  "Initial commit for assignment \x27" ++
    (projName ++ ("\x27 for student " ++ groupName))

/-- Embeds `create_student_assignment`: find the student's subgroup by exact name
in the pre-fetched listing (`RuntimeError` if absent), create the project
in that namespace (no retry argument), attach the runner (no retry
argument), then re-initialize the template working copy as a fresh
repository and push one root commit (empty parent list) whose tree is the
template snapshot and whose author and committer are the fixed
signature. -/
def create_student_assignment (student : Student) (student_subgroups : List Subgroup)
    (templateTree projName runnerId : String) :
    List ApiCall × Except PyError CreatedAssignment :=
  match student_subgroups.find? (fun g => g.name == _get_student_groupname student) with
  | none => ([], .error (.runtimeError
      ("Unable to find group for student " ++ _get_student_groupname student)))
  | some g =>
    let me := _get_git_commit_signature
    let c : Commit := { tree := templateTree, parents := [], author := me,
                        committer := me,
                        message := initialCommitMsg projName (_get_student_groupname student) }
    ([ApiCall.projectsCreate projName g.id false,
      ApiCall.runnersCreate runnerId false],
     .ok { groupId := g.id, projName := projName, pushedCommits := [c] })

/-- A project in the template group's listing, with the tree snapshot a
clone of it yields. -/
structure TemplateProject where
  path : String
  tree : String
deriving DecidableEq, Repr

/-- The per-student loop of `post_assignment`
(`for _, s in roster.iterrows(): create_student_assignment(...)`): no
exception handling, so the first per-student error aborts the loop. -/
def post_assignment_loop (student_subgroups : List Subgroup)
    (templateTree projName runnerId : String) :
    List Student → List ApiCall × Except PyError (List CreatedAssignment)
  | [] => ([], .ok [])
  | s :: rest =>
    match create_student_assignment s student_subgroups templateTree projName runnerId with
    | (cs, .error e) => (cs, .error e)
    | (cs, .ok a) =>
      match post_assignment_loop student_subgroups templateTree projName runnerId rest with
      | (cs2, .error e) => (cs ++ cs2, .error e)
      | (cs2, .ok l) => (cs ++ cs2, .ok (a :: l))

/-- Embeds `post_assignment`: look the template project up by exact `path` match
in the template group's listing.  On a miss, the `except:` handler first
evaluates `f"Template project ... in group ID {template_group_id} ..."`,
but `template_group_id` is not defined in this scope, so a
`NameError` is raised and the descriptive
`RuntimeError(f"Unable to find template project {temp_proj_path}...")` two
lines below is never reached.  On a hit, the template is cloned once and
the per-student loop runs over the roster. -/
def post_assignment (roster : List Student) (template_projects : List TemplateProject)
    (student_subgroups : List Subgroup) (temp_proj_path runnerId : String) :
    List ApiCall × Except PyError (List CreatedAssignment) :=
  match template_projects.find? (fun p => p.path == temp_proj_path) with
  | none => ([], .error (.nameError "template_group_id"))
  | some tp =>
    post_assignment_loop student_subgroups tp.tree temp_proj_path runnerId roster

/-- Closed form of the project `create_student_assignment` produces for a
student whose subgroup is found (the `none` branch is a junk value, used
only under the hypothesis that every subgroup resolves). -/
def assignmentOf (student_subgroups : List Subgroup) (templateTree projName : String)
    (s : Student) : CreatedAssignment :=
  match student_subgroups.find? (fun g => g.name == _get_student_groupname s) with
  | some g =>
    { groupId := g.id, projName := projName,
      pushedCommits := [{ tree := templateTree, parents := [],
                          author := _get_git_commit_signature,
                          committer := _get_git_commit_signature,
                          message := initialCommitMsg projName (_get_student_groupname s) }] }
  | none => { groupId := 0, projName := projName, pushedCommits := [] }

/-! ## Patch Distribution Engine -/

/-- The state a fresh clone of a student's assignment project yields:
the current branch tip's object id and its tree. -/
structure RepoState where
  headOid : Nat
  tree : String
deriving DecidableEq, Repr

/-- The external collaborators `apply_patch_to_assignment` talks to:
the subgroup listing of the top-level student group, each group's project
listing, the repository state a clone of each project yields, and the
outcome of `repo.apply(diff)` for the (fixed) patch on a given tree
(`none` where pygit2 raises because the diff does not apply cleanly,
`some newTree` on a clean apply). -/
structure PatchWorld where
  subgroups : List Subgroup
  projectsOf : Nat → List Project
  repoOf : Nat → RepoState
  applyPatch : String → Option String

/-- The message of the patch commit:
`f"Apply patch to assignment for {_get_student_groupname(student)}"`. -/
def patchCommitMsg (groupName : String) : String :=
  "Apply patch to assignment for " ++ groupName

/-- Embeds `apply_patch_to_assignment`: resolve the student's subgroup
(`_get_student_group` raises on a miss), then the project by exact `path`
match in its listing (`RuntimeError(msg)` on a miss — both errors escape
to the caller), clone it, and try to apply the patch.  A failed apply is
caught, logged, and returns `False` with nothing staged, committed or
pushed.  A clean apply stages everything, creates one commit on the branch
tip (single parent, fixed signature) and pushes it, returning `True`.
The result is the returned boolean paired with the pushed commit, if any. -/
def apply_patch_to_assignment (w : PatchWorld) (student : Student)
    (proj_path : String) : Except PyError (Bool × Option Commit) :=
  match _get_student_group w.subgroups student with
  | .error e => .error e
  | .ok gid =>
    match (w.projectsOf gid).find? (fun p => p.path == proj_path) with
    | none => .error (.runtimeError
        ("Cannot find project " ++ (proj_path ++ (" for " ++ _get_student_groupname student))))
    | some proj =>
      let repo := w.repoOf proj.id
      match w.applyPatch repo.tree with
      | none => .ok (false, none)
      | some newTree =>
        let me := _get_git_commit_signature
        .ok (true, some { tree := newTree, parents := [repo.headOid], author := me,
                          committer := me,
                          message := patchCommitMsg (_get_student_groupname student) })

/-- One completed per-student attempt of the patch batch. -/
structure PatchAttempt where
  studentName : String
  pushed : Option Commit
deriving DecidableEq, Repr

/-- Embeds `patch_assignment`: loop over the roster; when
`apply_patch_to_assignment` returns `False` the caller logs
`f"Unable to patch assignment {proj_path} for {name}"` and continues, but
an exception raised inside it is not caught and aborts the loop.  Returns
the attempts completed in roster order, the derived names of the students
whose patch failed to apply (the failure log), and the aborting exception,
if one escaped. -/
def patch_assignment (w : PatchWorld) (proj_path : String) :
    List Student → List PatchAttempt × List String × Option PyError
  | [] => ([], [], none)
  | s :: rest =>
    match apply_patch_to_assignment w s proj_path with
    | .error e => ([], [], some e)
    | .ok (b, c) =>
      let (attempts, failures, err) := patch_assignment w proj_path rest
      (⟨_get_student_groupname s, c⟩ :: attempts,
       if b then failures else _get_student_groupname s :: failures,
       err)

/-! ## Helper lemmas -/

theorem sectionErrMsg_mentions_section (f s : String) : mentions (sectionErrMsg f s) s := by
  refine ⟨"File " ++ f ++ " must contain a section \x27[", "]\x27", ?_⟩
  simp [sectionErrMsg, String.append_assoc]

theorem sectionErrMsg_mentions_file (f s : String) : mentions (sectionErrMsg f s) f := by
  refine ⟨"File ", " must contain a section \x27[" ++ (s ++ "]\x27"), ?_⟩
  simp [sectionErrMsg, String.append_assoc]

theorem keyErrMsg_mentions_key (f k n : String) : mentions (keyErrMsg f k n) k := by
  refine ⟨"File " ++ f ++ " must contain an entry \x27",
    "\x27 in section \x27[<Section: " ++ (n ++ ">]\x27"), ?_⟩
  simp [keyErrMsg, String.append_assoc]

theorem keyErrMsg_mentions_file (f k n : String) : mentions (keyErrMsg f k n) f := by
  refine ⟨"File ",
    " must contain an entry \x27" ++ (k ++ ("\x27 in section \x27[<Section: " ++ (n ++ ">]\x27"))), ?_⟩
  simp [keyErrMsg, String.append_assoc]

/-- The initial-commit message determines the student's group name (for a
fixed assignment name), since the name is a suffix after a fixed prefix. -/
theorem initialCommitMsg_inj (pn n1 n2 : String)
    (h : initialCommitMsg pn n1 = initialCommitMsg pn n2) : n1 = n2 := by
  apply String.ext
  have hd := congrArg String.data h
  simp only [initialCommitMsg, String.data_append] at hd
  exact List.append_cancel_left (List.append_cancel_left (List.append_cancel_left hd))

/-- When every roster student's subgroup resolves, the fan-out loop
succeeds and produces exactly the per-student assignments. -/
theorem post_assignment_loop_ok (student_subgroups : List Subgroup)
    (tree pn rid : String) :
    ∀ roster : List Student,
      (∀ s ∈ roster,
        (student_subgroups.find? (fun g => g.name == _get_student_groupname s)).isSome) →
      (post_assignment_loop student_subgroups tree pn rid roster).2 =
        .ok (roster.map (assignmentOf student_subgroups tree pn)) := by
  intro roster
  induction roster with
  | nil => intro _; simp [post_assignment_loop]
  | cons s rest ih =>
    intro h
    have hs := h s (List.mem_cons_self s rest)
    cases hfind : student_subgroups.find? (fun g => g.name == _get_student_groupname s) with
    | none => rw [hfind] at hs; simp at hs
    | some g =>
      have ihr := ih (fun t ht => h t (List.mem_cons_of_mem s ht))
      cases hrest : post_assignment_loop student_subgroups tree pn rid rest with
      | mk cs2 r2 =>
        rw [hrest] at ihr
        simp only at ihr
        subst ihr
        simp [post_assignment_loop, create_student_assignment, hfind, hrest, assignmentOf]

/-- The assignment of a student with a resolvable subgroup carries exactly
one pushed commit: the root commit with the fixed signature. -/
theorem assignmentOf_pushedCommits (student_subgroups : List Subgroup)
    (tree pn : String) (s : Student) (g : Subgroup)
    (hfind : student_subgroups.find? (fun x => x.name == _get_student_groupname s) = some g) :
    (assignmentOf student_subgroups tree pn s).pushedCommits =
      [{ tree := tree, parents := [],
         author := _get_git_commit_signature,
         committer := _get_git_commit_signature,
         message := initialCommitMsg pn (_get_student_groupname s) }] := by
  simp [assignmentOf, hfind]

/-! ## Claim theorems -/

/-- C9: group-name and slug derivation are pure, deterministic functions of
the roster row's name fields; `{First: "Ada", Last: "Lovelace"}` derives
group name `"Ada Lovelace"` and slug `"ada-lovelace"`; for a first name
with an extra whitespace-separated token (`"Mary Jane"`), the slug is
lowercased with each inter-token space hyphenated, as the constructed
string `f"{first}-{last}".replace(' ', '-').lower()` prescribes. -/
theorem group_name_slug_derivation :
    (∀ s t : Student, s.firstName = t.firstName → s.lastName = t.lastName →
      _get_student_groupname s = _get_student_groupname t ∧
      _get_student_grouppath s = _get_student_grouppath t) ∧
    _get_student_groupname ⟨"Ada", "Lovelace", "ada"⟩ = "Ada Lovelace" ∧
    _get_student_grouppath ⟨"Ada", "Lovelace", "ada"⟩ = "ada-lovelace" ∧
    _get_student_grouppath ⟨"Mary Jane", "Watson", "mjw"⟩ = "mary-jane-watson" := by
  refine ⟨?_, by decide, by decide, by decide⟩
  intro s t h1 h2
  constructor
  · simp [_get_student_groupname, _get_student_firstname, _get_student_lastname, h1, h2]
  · simp [_get_student_grouppath, _get_student_firstname, _get_student_lastname, h1, h2]

/-- Witness for C9: the determinism conjunct applied to two concrete rows
that agree on the name columns but differ in username. -/
theorem group_name_slug_derivation_witness :
    _get_student_groupname ⟨"Ada", "Lovelace", "u1"⟩ =
      _get_student_groupname ⟨"Ada", "Lovelace", "u2"⟩ ∧
    _get_student_grouppath ⟨"Ada", "Lovelace", "u1"⟩ =
      _get_student_grouppath ⟨"Ada", "Lovelace", "u2"⟩ :=
  group_name_slug_derivation.1 ⟨"Ada", "Lovelace", "u1"⟩ ⟨"Ada", "Lovelace", "u2"⟩ rfl rfl

/-- C6: for every settings file missing a required section or key, each
accessor (`_get_auth_info`, `_get_groups_info`, `_get_course_info`,
`_get_grader_info`) returns a configuration error whose message names the
missing section or key together with the settings-file path (a missing key
is reported as the first missing one, in the order the code checks).  The
accessors are pure functions of the parsed file, so no network call is
involved, and no required value is defaulted: the error is raised instead. -/
theorem config_accessors_error_on_missing (c : IniFile) (f : String) :
    (c.getSection "auth" = none →
      ∃ m, _get_auth_info c f = .error m ∧ mentions m "auth" ∧ mentions m f) ∧
    (∀ sec, c.getSection "auth" = some sec → secHasKey sec "url" = false →
      ∃ m, _get_auth_info c f = .error m ∧ mentions m "url" ∧ mentions m f) ∧
    (∀ sec, c.getSection "auth" = some sec → secHasKey sec "url" = true →
      secHasKey sec "pa_token" = false →
      ∃ m, _get_auth_info c f = .error m ∧ mentions m "pa_token" ∧ mentions m f) ∧
    (∀ sec, c.getSection "auth" = some sec → secHasKey sec "url" = true →
      secHasKey sec "pa_token" = true → secHasKey sec "ssh_path" = false →
      ∃ m, _get_auth_info c f = .error m ∧ mentions m "ssh_path" ∧ mentions m f) ∧
    (∀ sec, c.getSection "auth" = some sec → secHasKey sec "url" = true →
      secHasKey sec "pa_token" = true → secHasKey sec "ssh_path" = true →
      secHasKey sec "ssh_type" = false →
      ∃ m, _get_auth_info c f = .error m ∧ mentions m "ssh_type" ∧ mentions m f) ∧
    (c.getSection "groups" = none →
      ∃ m, _get_groups_info c f = .error m ∧ mentions m "groups" ∧ mentions m f) ∧
    (∀ sec, c.getSection "groups" = some sec → secHasKey sec "student_group_id" = false →
      ∃ m, _get_groups_info c f = .error m ∧ mentions m "student_group_id" ∧ mentions m f) ∧
    (∀ sec, c.getSection "groups" = some sec → secHasKey sec "student_group_id" = true →
      secHasKey sec "template_group_id" = false →
      ∃ m, _get_groups_info c f = .error m ∧ mentions m "template_group_id" ∧ mentions m f) ∧
    (c.getSection "course" = none →
      ∃ m, _get_course_info c f = .error m ∧ mentions m "course" ∧ mentions m f) ∧
    (∀ sec, c.getSection "course" = some sec → secHasKey sec "roster" = false →
      ∃ m, _get_course_info c f = .error m ∧ mentions m "roster" ∧ mentions m f) ∧
    (c.getSection "grader" = none →
      ∃ m, _get_grader_info c f = .error m ∧ mentions m "grader" ∧ mentions m f) ∧
    (∀ sec, c.getSection "grader" = some sec → secHasKey sec "runner_id" = false →
      ∃ m, _get_grader_info c f = .error m ∧ mentions m "runner_id" ∧ mentions m f) := by
  refine ⟨?_, ?_, ?_, ?_, ?_, ?_, ?_, ?_, ?_, ?_, ?_, ?_⟩
  · intro h
    exact ⟨sectionErrMsg f "auth", by simp [_get_auth_info, h],
      sectionErrMsg_mentions_section f "auth", sectionErrMsg_mentions_file f "auth"⟩
  · intro sec h h1
    exact ⟨keyErrMsg f "url" "auth", by simp [_get_auth_info, h, h1],
      keyErrMsg_mentions_key f "url" "auth", keyErrMsg_mentions_file f "url" "auth"⟩
  · intro sec h h1 h2
    exact ⟨keyErrMsg f "pa_token" "auth", by simp [_get_auth_info, h, h1, h2],
      keyErrMsg_mentions_key f "pa_token" "auth", keyErrMsg_mentions_file f "pa_token" "auth"⟩
  · intro sec h h1 h2 h3
    exact ⟨keyErrMsg f "ssh_path" "auth", by simp [_get_auth_info, h, h1, h2, h3],
      keyErrMsg_mentions_key f "ssh_path" "auth", keyErrMsg_mentions_file f "ssh_path" "auth"⟩
  · intro sec h h1 h2 h3 h4
    exact ⟨keyErrMsg f "ssh_type" "auth", by simp [_get_auth_info, h, h1, h2, h3, h4],
      keyErrMsg_mentions_key f "ssh_type" "auth", keyErrMsg_mentions_file f "ssh_type" "auth"⟩
  · intro h
    exact ⟨sectionErrMsg f "groups", by simp [_get_groups_info, h],
      sectionErrMsg_mentions_section f "groups", sectionErrMsg_mentions_file f "groups"⟩
  · intro sec h h1
    exact ⟨keyErrMsg f "student_group_id" "groups", by simp [_get_groups_info, h, h1],
      keyErrMsg_mentions_key f "student_group_id" "groups",
      keyErrMsg_mentions_file f "student_group_id" "groups"⟩
  · intro sec h h1 h2
    exact ⟨keyErrMsg f "template_group_id" "groups", by simp [_get_groups_info, h, h1, h2],
      keyErrMsg_mentions_key f "template_group_id" "groups",
      keyErrMsg_mentions_file f "template_group_id" "groups"⟩
  · intro h
    exact ⟨sectionErrMsg f "course", by simp [_get_course_info, h],
      sectionErrMsg_mentions_section f "course", sectionErrMsg_mentions_file f "course"⟩
  · intro sec h h1
    exact ⟨keyErrMsg f "roster" "course", by simp [_get_course_info, h, h1],
      keyErrMsg_mentions_key f "roster" "course", keyErrMsg_mentions_file f "roster" "course"⟩
  · intro h
    exact ⟨sectionErrMsg f "grader", by simp [_get_grader_info, h],
      sectionErrMsg_mentions_section f "grader", sectionErrMsg_mentions_file f "grader"⟩
  · intro sec h h1
    exact ⟨keyErrMsg f "runner_id" "grader", by simp [_get_grader_info, h, h1],
      keyErrMsg_mentions_key f "runner_id" "grader", keyErrMsg_mentions_file f "runner_id" "grader"⟩

/-- Witness for C6: an empty settings file yields the missing-`auth`
error; a file whose `[auth]`/`[grader]` sections are empty yields the
missing-`url`/missing-`runner_id` errors, each naming the item and the
file path. -/
theorem config_accessors_error_on_missing_witness :
    (∃ m, _get_auth_info ⟨[]⟩ "settings.ini" = .error m ∧
      mentions m "auth" ∧ mentions m "settings.ini") ∧
    (∃ m, _get_auth_info ⟨[("auth", [])]⟩ "settings.ini" = .error m ∧
      mentions m "url" ∧ mentions m "settings.ini") ∧
    (∃ m, _get_groups_info ⟨[("groups", [])]⟩ "settings.ini" = .error m ∧
      mentions m "student_group_id" ∧ mentions m "settings.ini") ∧
    (∃ m, _get_course_info ⟨[("course", [])]⟩ "settings.ini" = .error m ∧
      mentions m "roster" ∧ mentions m "settings.ini") ∧
    (∃ m, _get_grader_info ⟨[("grader", [])]⟩ "settings.ini" = .error m ∧
      mentions m "runner_id" ∧ mentions m "settings.ini") :=
  ⟨(config_accessors_error_on_missing ⟨[]⟩ "settings.ini").1 rfl,
   (config_accessors_error_on_missing ⟨[("auth", [])]⟩ "settings.ini").2.1 [] rfl rfl,
   (config_accessors_error_on_missing ⟨[("groups", [])]⟩ "settings.ini").2.2.2.2.2.2.1 [] rfl rfl,
   (config_accessors_error_on_missing ⟨[("course", [])]⟩ "settings.ini").2.2.2.2.2.2.2.2.2.1 [] rfl rfl,
   (config_accessors_error_on_missing ⟨[("grader", [])]⟩ "settings.ini").2.2.2.2.2.2.2.2.2.2.2 [] rfl rfl⟩

/-- C7 counterexample: `runner_id` is not parsed to an integer.  With
`runner_id = "not-a-number"` — a value `int()` rejects — `_get_grader_info`
succeeds and hands the raw string through instead of raising a fatal
configuration error. -/
theorem runner_id_not_parsed_cex :
    pyInt "not-a-number" = none ∧
    _get_grader_info ⟨[("grader", [("runner_id", "not-a-number")])]⟩ "settings.ini" =
      .ok { runner_id := "not-a-number" } := by
  exact ⟨by decide, rfl⟩

/-- C7 amended: `_get_groups_info` parses `student_group_id` and
`template_group_id` with `int(...)`, and a value that fails to parse is a
fatal configuration error; but `_get_grader_info` returns `runner_id` as
the raw, unparsed string, so an unparseable `runner_id` raises nothing. -/
theorem numeric_id_parsing (c : IniFile) (f : String) :
    (∀ sec, c.getSection "groups" = some sec →
      secHasKey sec "student_group_id" = true →
      secHasKey sec "template_group_id" = true →
      (pyInt (secGet sec "student_group_id") = none →
        _get_groups_info c f = .error (intErrMsg (secGet sec "student_group_id"))) ∧
      (∀ a : Int, pyInt (secGet sec "student_group_id") = some a →
        pyInt (secGet sec "template_group_id") = none →
        _get_groups_info c f = .error (intErrMsg (secGet sec "template_group_id"))) ∧
      (∀ a b : Int, pyInt (secGet sec "student_group_id") = some a →
        pyInt (secGet sec "template_group_id") = some b →
        _get_groups_info c f = .ok { student_group_id := a, template_group_id := b })) ∧
    (∀ sec, c.getSection "grader" = some sec → secHasKey sec "runner_id" = true →
      _get_grader_info c f = .ok { runner_id := secGet sec "runner_id" }) := by
  constructor
  · intro sec h h1 h2
    refine ⟨?_, ?_, ?_⟩
    · intro hp
      simp [_get_groups_info, h, h1, h2, hp]
    · intro a hp1 hp2
      simp [_get_groups_info, h, h1, h2, hp1, hp2]
    · intro a b hp1 hp2
      simp [_get_groups_info, h, h1, h2, hp1, hp2]
  · intro sec h h1
    simp [_get_grader_info, h, h1]

/-- Witness for C7's amended theorem: a file whose group ids are `"12"`
and `"not-a-number"` makes `_get_groups_info` fail fatally on the
unparseable id, while `_get_grader_info` passes `"not-a-number"` through. -/
theorem numeric_id_parsing_witness :
    _get_groups_info
      ⟨[("groups", [("student_group_id", "12"), ("template_group_id", "not-a-number")])]⟩
      "settings.ini" = .error (intErrMsg "not-a-number") ∧
    _get_grader_info ⟨[("grader", [("runner_id", "not-a-number")])]⟩ "settings.ini" =
      .ok { runner_id := "not-a-number" } :=
  ⟨((numeric_id_parsing
      ⟨[("groups", [("student_group_id", "12"), ("template_group_id", "not-a-number")])]⟩
      "settings.ini").1 [("student_group_id", "12"), ("template_group_id", "not-a-number")]
      rfl rfl rfl).2.1 12 (by decide) (by decide),
   (numeric_id_parsing ⟨[("grader", [("runner_id", "not-a-number")])]⟩ "settings.ini").2
      [("runner_id", "not-a-number")] rfl rfl⟩

/-- C8: student subgroup lookup matches the derived group name exactly —
whenever `_get_student_group` succeeds, the subgroup it selected carries
exactly the derived name (so a listing entry differing in any character,
such as `"Ada Lovelace2"` for `"Ada Lovelace"`, is never selected) — and
when no listed subgroup carries the exact derived name, the lookup (both in
`_get_student_group` and in `create_student_assignment`'s inlined copy)
fails with a group-not-found error whose message contains the derived
group name. -/
theorem student_group_exact_match (student_groups : List Subgroup) (s : Student) :
    (∀ gid, _get_student_group student_groups s = .ok gid →
      ∃ g ∈ student_groups, g.name = _get_student_groupname s ∧ g.id = gid) ∧
    ((∀ g ∈ student_groups, g.name ≠ _get_student_groupname s) →
      (∃ m, _get_student_group student_groups s = .error (.runtimeError m) ∧
        mentions m (_get_student_groupname s)) ∧
      ∀ tree pn rid,
        (create_student_assignment s student_groups tree pn rid).1 = [] ∧
        ∃ m, (create_student_assignment s student_groups tree pn rid).2 =
          .error (.runtimeError m) ∧ mentions m (_get_student_groupname s)) := by
  constructor
  · intro gid hok
    cases hfind : student_groups.find? (fun g => g.name == _get_student_groupname s) with
    | none => simp [_get_student_group, hfind] at hok
    | some g =>
      have hmem := List.mem_of_find?_eq_some hfind
      have hname := List.find?_some hfind
      simp only [beq_iff_eq] at hname
      refine ⟨g, hmem, hname, ?_⟩
      simp [_get_student_group, hfind] at hok
      exact hok
  · intro hnone
    have hfind : student_groups.find? (fun g => g.name == _get_student_groupname s) = none := by
      rw [List.find?_eq_none]
      intro g hg
      simp only [beq_iff_eq]
      exact hnone g hg
    refine ⟨⟨"Was unable to find group for student " ++ _get_student_groupname s,
      by simp [_get_student_group, hfind], ?_⟩, ?_⟩
    · exact ⟨"Was unable to find group for student ", "", by simp [String.append_assoc]⟩
    · intro tree pn rid
      refine ⟨by simp [create_student_assignment, hfind],
        "Unable to find group for student " ++ _get_student_groupname s,
        by simp [create_student_assignment, hfind], ?_⟩
      exact ⟨"Unable to find group for student ", "", by simp [String.append_assoc]⟩

/-- Witness for C8: the listing `["Ada Lovelace2"]` does not match the
student `"Ada Lovelace"` — the lookup fails with an error naming
`"Ada Lovelace"` — and against the listing `["Ada Lovelace"]` the lookup
selects exactly that subgroup. -/
theorem student_group_exact_match_witness :
    ((∃ m, _get_student_group [⟨"Ada Lovelace2", 7⟩] ⟨"Ada", "Lovelace", "ada"⟩ =
        .error (.runtimeError m) ∧
        mentions m (_get_student_groupname ⟨"Ada", "Lovelace", "ada"⟩)) ∧
      ∀ tree pn rid,
        (create_student_assignment ⟨"Ada", "Lovelace", "ada"⟩ [⟨"Ada Lovelace2", 7⟩]
          tree pn rid).1 = [] ∧
        ∃ m, (create_student_assignment ⟨"Ada", "Lovelace", "ada"⟩ [⟨"Ada Lovelace2", 7⟩]
          tree pn rid).2 = .error (.runtimeError m) ∧
          mentions m (_get_student_groupname ⟨"Ada", "Lovelace", "ada"⟩)) ∧
    (∃ g ∈ [Subgroup.mk "Ada Lovelace" 5],
      g.name = _get_student_groupname ⟨"Ada", "Lovelace", "ada"⟩ ∧ g.id = 5) :=
  ⟨(student_group_exact_match [⟨"Ada Lovelace2", 7⟩] ⟨"Ada", "Lovelace", "ada"⟩).2
      (by decide),
   (student_group_exact_match [⟨"Ada Lovelace", 5⟩] ⟨"Ada", "Lovelace", "ada"⟩).1 5 rfl⟩

/-- C10: when no user in the search result matches the student's username
exactly, `_get_student_user_id` never produces the descriptive
`ValueError("Could not find username for ...")` it constructs — the
f-string references the undefined name `s` instead of `student`, so the
lookup raises `NameError: name 's' is not defined` — and
`make_student_groups` aborts at that student, right after creating their
group, rather than reporting which username was missing or continuing the
roster. -/
theorem user_lookup_nameerror_aborts (user : List User) (s : Student)
    (search : String → List User) (parentId : Int) (accessLevel : Nat)
    (rest : List Student) :
    ((∀ u ∈ user, u.username ≠ _get_student_username s) →
      _get_student_user_id user s = .error (.nameError "s") ∧
      ∀ m, _get_student_user_id user s ≠ .error (.valueError m)) ∧
    ((∀ u ∈ search (_get_student_username s), u.username ≠ _get_student_username s) →
      make_student_groups search parentId accessLevel (s :: rest) =
        ([ApiCall.groupsCreate (_get_student_groupname s) "private"
            (_get_student_grouppath s) parentId true],
         .error (.nameError "s"))) := by
  constructor
  · intro hnone
    have hfind : user.find? (fun u => u.username == _get_student_username s) = none := by
      rw [List.find?_eq_none]
      intro u hu
      simp only [beq_iff_eq]
      exact hnone u hu
    exact ⟨by simp [_get_student_user_id, hfind], by simp [_get_student_user_id, hfind]⟩
  · intro hnone
    have hfind : (search (_get_student_username s)).find?
        (fun u => u.username == _get_student_username s) = none := by
      rw [List.find?_eq_none]
      intro u hu
      simp only [beq_iff_eq]
      exact hnone u hu
    simp [make_student_groups, _get_student_user_id, hfind]

/-- Witness for C10: the search for `"bob"` returns only `"bobby"`, so the
lookup yields the `NameError` and the batch over `[bob, carol]` stops after
bob's group creation, with carol never processed. -/
theorem user_lookup_nameerror_aborts_witness :
    (_get_student_user_id [⟨"bobby", 3⟩] ⟨"Bob", "Builder", "bob"⟩ =
        .error (.nameError "s") ∧
      ∀ m, _get_student_user_id [⟨"bobby", 3⟩] ⟨"Bob", "Builder", "bob"⟩ ≠
        .error (.valueError m)) ∧
    make_student_groups (fun _ => [⟨"bobby", 3⟩]) 11 40
        [⟨"Bob", "Builder", "bob"⟩, ⟨"Carol", "Clark", "carol"⟩] =
      ([ApiCall.groupsCreate "Bob Builder" "private" "bob-builder" 11 true],
       .error (.nameError "s")) :=
  ⟨(user_lookup_nameerror_aborts [⟨"bobby", 3⟩] ⟨"Bob", "Builder", "bob"⟩
      (fun _ => [⟨"bobby", 3⟩]) 11 40 [⟨"Carol", "Clark", "carol"⟩]).1 (by decide),
   (user_lookup_nameerror_aborts [⟨"bobby", 3⟩] ⟨"Bob", "Builder", "bob"⟩
      (fun _ => [⟨"bobby", 3⟩]) 11 40 [⟨"Carol", "Clark", "carol"⟩]).2 (by decide)⟩

/-- C4 counterexample: not every creation call is issued with the client's
transient-error retry enabled.  For a concrete student whose subgroup
exists, `create_student_assignment` issues its project-creation and
runner-attachment calls, and neither carries `retry_transient_errors`
(`(...).all retryEnabled` is `false`, refuting "every platform creation
call ... is made with the retry mechanism enabled"). -/
theorem creation_calls_not_all_retry_cex :
    (create_student_assignment ⟨"Ada", "Lovelace", "ada"⟩ [⟨"Ada Lovelace", 5⟩]
        "T" "hw1" "9").1 =
      [ApiCall.projectsCreate "hw1" 5 false, ApiCall.runnersCreate "9" false] ∧
    ((create_student_assignment ⟨"Ada", "Lovelace", "ada"⟩ [⟨"Ada Lovelace", 5⟩]
        "T" "hw1" "9").1).all ApiCall.retryEnabled = false := by
  exact ⟨by decide, by decide⟩

/-- C4 amended: the two creation calls of `make_student_groups` (student
group creation and group membership creation) are issued with
`retry_transient_errors = True`, but the two creation calls of
`create_student_assignment` (student project creation and runner
attachment) are issued without the retry option. -/
theorem creation_retry_flags (search : String → List User) (parentId : Int)
    (accessLevel : Nat) (roster : List Student) (s : Student)
    (student_subgroups : List Subgroup) (tree pn rid : String) :
    (∀ call ∈ (make_student_groups search parentId accessLevel roster).1,
      call.retryEnabled = true) ∧
    (∀ call ∈ (create_student_assignment s student_subgroups tree pn rid).1,
      call.retryEnabled = false) := by
  constructor
  · induction roster with
    | nil => simp [make_student_groups]
    | cons t rest ih =>
      intro call hcall
      simp only [make_student_groups] at hcall
      cases hu : _get_student_user_id (search (_get_student_username t)) t with
      | error e =>
        rw [hu] at hcall
        simp at hcall
        simp [hcall, ApiCall.retryEnabled]
      | ok uid =>
        rw [hu] at hcall
        simp at hcall
        rcases hcall with h | h | h
        · simp [h, ApiCall.retryEnabled]
        · simp [h, ApiCall.retryEnabled]
        · exact ih call h
  · intro call hcall
    cases hfind : student_subgroups.find? (fun g => g.name == _get_student_groupname s) with
    | none => simp [create_student_assignment, hfind] at hcall
    | some g =>
      simp [create_student_assignment, hfind] at hcall
      rcases hcall with h | h
      · simp [h, ApiCall.retryEnabled]
      · simp [h, ApiCall.retryEnabled]

/-- Witness for C4's amended theorem: for a concrete roster and subgroup
listing, the group/membership calls carry the retry flag and the
project/runner calls do not. -/
theorem creation_retry_flags_witness :
    ApiCall.retryEnabled (ApiCall.groupsCreate "Bob Builder" "private" "bob-builder" 11 true) =
      true ∧
    ApiCall.retryEnabled (ApiCall.projectsCreate "hw1" 5 false) = false :=
  ⟨(creation_retry_flags (fun _ => [⟨"bob", 3⟩]) 11 40 [⟨"Bob", "Builder", "bob"⟩]
      ⟨"Ada", "Lovelace", "ada"⟩ [⟨"Ada Lovelace", 5⟩] "T" "hw1" "9").1
      (ApiCall.groupsCreate "Bob Builder" "private" "bob-builder" 11 true) (by decide),
   (creation_retry_flags (fun _ => [⟨"bob", 3⟩]) 11 40 [⟨"Bob", "Builder", "bob"⟩]
      ⟨"Ada", "Lovelace", "ada"⟩ [⟨"Ada Lovelace", 5⟩] "T" "hw1" "9").2
      (ApiCall.projectsCreate "hw1" 5 false) (by decide)⟩

/-- C5 (code bug): with the template listing `["other-hw"]` and requested
path `"homework-1"`, the exact-match lookup misses and `post_assignment`
creates nothing for any student — but the error it aborts with is
`NameError: name 'template_group_id' is not defined`, raised while the
`except:` handler formats its log message, not the descriptive
`RuntimeError("Unable to find template project homework-1...")` on the
next line, which is unreachable.  No `RuntimeError` of any message is
raised. -/
theorem post_assignment_missing_template_nameerror :
    post_assignment [⟨"Ada", "Lovelace", "ada"⟩] [⟨"other-hw", "T"⟩]
        [⟨"Ada Lovelace", 5⟩] "homework-1" "9" =
      ([], .error (.nameError "template_group_id")) ∧
    ∀ m, (post_assignment [⟨"Ada", "Lovelace", "ada"⟩] [⟨"other-hw", "T"⟩]
        [⟨"Ada Lovelace", 5⟩] "homework-1" "9").2 ≠ .error (.runtimeError m) := by
  have h : post_assignment [⟨"Ada", "Lovelace", "ada"⟩] [⟨"other-hw", "T"⟩]
      [⟨"Ada Lovelace", 5⟩] "homework-1" "9" =
      ([], .error (.nameError "template_group_id")) := rfl
  refine ⟨h, ?_⟩
  intro m
  rw [h]
  simp

/-- C2 counterexample: student A's subgroup exists but their subgroup's
project listing does not contain `"hw1"`; the batch over `[A, B]` does not
record a per-student failure and move on to B — it aborts with the
`RuntimeError` escaping `apply_patch_to_assignment`, before B is ever
attempted (no attempt and no failure entry is recorded for either
student). -/
theorem patch_missing_project_aborts_batch_cex :
    patch_assignment
      { subgroups := [⟨"Ada Lovelace", 1⟩, ⟨"Ben Bitdiddle", 2⟩],
        projectsOf := fun _ => [],
        repoOf := fun _ => ⟨0, "t"⟩,
        applyPatch := fun t => some t }
      "hw1" [⟨"Ada", "Lovelace", "ada"⟩, ⟨"Ben", "Bitdiddle", "ben"⟩] =
      ([], [], some (.runtimeError "Cannot find project hw1 for Ada Lovelace")) := rfl

/-- C2 amended: when a student's subgroup is found but no project in it
matches the assignment path exactly, `apply_patch_to_assignment` raises
`RuntimeError(f"Cannot find project {proj_path} for {name}")`; the
exception escapes the per-student boundary (there is no handler in
`patch_assignment`'s loop), so the batch aborts at that student: no
per-student failure is recorded and the remaining roster is not
attempted. -/
theorem patch_missing_project_raises_and_aborts (w : PatchWorld) (s : Student)
    (rest : List Student) (proj_path : String) (g : Subgroup)
    (hg : w.subgroups.find? (fun x => x.name == _get_student_groupname s) = some g)
    (hp : (w.projectsOf g.id).find? (fun p => p.path == proj_path) = none) :
    apply_patch_to_assignment w s proj_path = .error (.runtimeError
      ("Cannot find project " ++ (proj_path ++ (" for " ++ _get_student_groupname s)))) ∧
    patch_assignment w proj_path (s :: rest) =
      ([], [], some (.runtimeError
        ("Cannot find project " ++ (proj_path ++ (" for " ++ _get_student_groupname s))))) := by
  have happ : apply_patch_to_assignment w s proj_path = .error (.runtimeError
      ("Cannot find project " ++ (proj_path ++ (" for " ++ _get_student_groupname s)))) := by
    simp [apply_patch_to_assignment, _get_student_group, hg, hp]
  exact ⟨happ, by simp [patch_assignment, happ]⟩

/-- Witness for C2's amended theorem: the counterexample world
instantiated — Ada's subgroup is found, `"hw1"` is not among her projects,
and the two-student batch aborts without reaching Ben. -/
theorem patch_missing_project_raises_and_aborts_witness :
    apply_patch_to_assignment
      { subgroups := [⟨"Ada Lovelace", 1⟩, ⟨"Ben Bitdiddle", 2⟩],
        projectsOf := fun _ => [],
        repoOf := fun _ => ⟨0, "t"⟩,
        applyPatch := fun t => some t }
      ⟨"Ada", "Lovelace", "ada"⟩ "hw1" =
      .error (.runtimeError "Cannot find project hw1 for Ada Lovelace") ∧
    patch_assignment
      { subgroups := [⟨"Ada Lovelace", 1⟩, ⟨"Ben Bitdiddle", 2⟩],
        projectsOf := fun _ => [],
        repoOf := fun _ => ⟨0, "t"⟩,
        applyPatch := fun t => some t }
      "hw1" [⟨"Ada", "Lovelace", "ada"⟩, ⟨"Ben", "Bitdiddle", "ben"⟩] =
      ([], [], some (.runtimeError "Cannot find project hw1 for Ada Lovelace")) :=
  patch_missing_project_raises_and_aborts
    { subgroups := [⟨"Ada Lovelace", 1⟩, ⟨"Ben Bitdiddle", 2⟩],
      projectsOf := fun _ => [],
      repoOf := fun _ => ⟨0, "t"⟩,
      applyPatch := fun t => some t }
    ⟨"Ada", "Lovelace", "ada"⟩ [⟨"Ben", "Bitdiddle", "ben"⟩] "hw1" ⟨"Ada Lovelace", 1⟩
    rfl rfl

/-- C1: for a roster `[A, B, C]` where each student's subgroup and
assignment project resolve, and the patch applies cleanly to A's and C's
clones but not to B's, the batch pushes for A and for C one new commit on
their branch tip (single parent, fixed signature), pushes nothing for B —
B's attempt returns `False` with no commit staged or pushed — logs the
failure report naming exactly B, and still completes all three attempts
(no aborting exception). -/
theorem patch_batch_isolates_failed_student (w : PatchWorld) (A B C : Student)
    (proj_path : String) (gA gB gC : Subgroup) (pA pB pC : Project) (tA tC : String)
    (hgA : w.subgroups.find? (fun x => x.name == _get_student_groupname A) = some gA)
    (hpA : (w.projectsOf gA.id).find? (fun p => p.path == proj_path) = some pA)
    (haA : w.applyPatch (w.repoOf pA.id).tree = some tA)
    (hgB : w.subgroups.find? (fun x => x.name == _get_student_groupname B) = some gB)
    (hpB : (w.projectsOf gB.id).find? (fun p => p.path == proj_path) = some pB)
    (haB : w.applyPatch (w.repoOf pB.id).tree = none)
    (hgC : w.subgroups.find? (fun x => x.name == _get_student_groupname C) = some gC)
    (hpC : (w.projectsOf gC.id).find? (fun p => p.path == proj_path) = some pC)
    (haC : w.applyPatch (w.repoOf pC.id).tree = some tC) :
    patch_assignment w proj_path [A, B, C] =
      ([⟨_get_student_groupname A,
          some { tree := tA, parents := [(w.repoOf pA.id).headOid],
                 author := _get_git_commit_signature,
                 committer := _get_git_commit_signature,
                 message := patchCommitMsg (_get_student_groupname A) }⟩,
        ⟨_get_student_groupname B, none⟩,
        ⟨_get_student_groupname C,
          some { tree := tC, parents := [(w.repoOf pC.id).headOid],
                 author := _get_git_commit_signature,
                 committer := _get_git_commit_signature,
                 message := patchCommitMsg (_get_student_groupname C) }⟩],
       [_get_student_groupname B], none) := by
  have hA : apply_patch_to_assignment w A proj_path =
      .ok (true, some { tree := tA, parents := [(w.repoOf pA.id).headOid],
                        author := _get_git_commit_signature,
                        committer := _get_git_commit_signature,
                        message := patchCommitMsg (_get_student_groupname A) }) := by
    simp [apply_patch_to_assignment, _get_student_group, hgA, hpA, haA]
  have hB : apply_patch_to_assignment w B proj_path = .ok (false, none) := by
    simp [apply_patch_to_assignment, _get_student_group, hgB, hpB, haB]
  have hC : apply_patch_to_assignment w C proj_path =
      .ok (true, some { tree := tC, parents := [(w.repoOf pC.id).headOid],
                        author := _get_git_commit_signature,
                        committer := _get_git_commit_signature,
                        message := patchCommitMsg (_get_student_groupname C) }) := by
    simp [apply_patch_to_assignment, _get_student_group, hgC, hpC, haC]
  simp [patch_assignment, hA, hB, hC]

/-- Witness for C1: a concrete three-student world — one project `"hw1"`
per subgroup, per-project trees `t1`/`t2`/`t3`, and a patch that applies
to every tree except `t2` — pushes exactly the two expected commits and
reports exactly Ben. -/
theorem patch_batch_isolates_failed_student_witness :
    patch_assignment
      { subgroups := [⟨"Ada Lovelace", 1⟩, ⟨"Ben Bitdiddle", 2⟩, ⟨"Cy Fall", 3⟩],
        projectsOf := fun gid => [⟨gid, "hw1"⟩],
        repoOf := fun pid => ⟨pid, "t" ++ toString pid⟩,
        applyPatch := fun t => if t == "t2" then none else some (t ++ "+patched") }
      "hw1" [⟨"Ada", "Lovelace", "ada"⟩, ⟨"Ben", "Bitdiddle", "ben"⟩, ⟨"Cy", "Fall", "cy"⟩] =
      ([⟨"Ada Lovelace",
          some { tree := "t1+patched", parents := [1],
                 author := _get_git_commit_signature,
                 committer := _get_git_commit_signature,
                 message := patchCommitMsg "Ada Lovelace" }⟩,
        ⟨"Ben Bitdiddle", none⟩,
        ⟨"Cy Fall",
          some { tree := "t3+patched", parents := [3],
                 author := _get_git_commit_signature,
                 committer := _get_git_commit_signature,
                 message := patchCommitMsg "Cy Fall" }⟩],
       ["Ben Bitdiddle"], none) :=
  patch_batch_isolates_failed_student
    { subgroups := [⟨"Ada Lovelace", 1⟩, ⟨"Ben Bitdiddle", 2⟩, ⟨"Cy Fall", 3⟩],
      projectsOf := fun gid => [⟨gid, "hw1"⟩],
      repoOf := fun pid => ⟨pid, "t" ++ toString pid⟩,
      applyPatch := fun t => if t == "t2" then none else some (t ++ "+patched") }
    ⟨"Ada", "Lovelace", "ada"⟩ ⟨"Ben", "Bitdiddle", "ben"⟩ ⟨"Cy", "Fall", "cy"⟩ "hw1"
    ⟨"Ada Lovelace", 1⟩ ⟨"Ben Bitdiddle", 2⟩ ⟨"Cy Fall", 3⟩
    ⟨1, "hw1"⟩ ⟨2, "hw1"⟩ ⟨3, "hw1"⟩ "t1+patched" "t3+patched"
    rfl rfl rfl rfl rfl rfl rfl rfl rfl

/-- C3: when the template resolves and every roster student's subgroup
exists (with the spec's data-model invariant that derived group names are
unique per course), `post_assignment` creates exactly one project per
roster student, the history pushed to each consists of exactly one commit,
that commit is a root commit (empty parent list) of the template tree
whose author and committer are the fixed `_get_git_commit_signature`, and
no two students' initial commits share a git object id (object ids being
content hashes, the commits' recorded content differs pairwise — here
through the commit message, which names the student). -/
theorem post_assignment_fanout_correct (roster : List Student)
    (template_projects : List TemplateProject) (student_subgroups : List Subgroup)
    (temp_proj_path runnerId : String) (tp : TemplateProject)
    (htp : template_projects.find? (fun p => p.path == temp_proj_path) = some tp)
    (hsub : ∀ s ∈ roster,
      (student_subgroups.find? (fun g => g.name == _get_student_groupname s)).isSome)
    (hdist : roster.Pairwise
      (fun a b => _get_student_groupname a ≠ _get_student_groupname b)) :
    ∃ created : List CreatedAssignment,
      (post_assignment roster template_projects student_subgroups temp_proj_path runnerId).2 =
        .ok created ∧
      created.length = roster.length ∧
      (∀ a ∈ created, ∃ c : Commit, a.pushedCommits = [c] ∧ c.parents = [] ∧
        c.author = _get_git_commit_signature ∧ c.committer = _get_git_commit_signature ∧
        c.tree = tp.tree) ∧
      created.Pairwise (fun a b => ∀ ca cb : Commit,
        a.pushedCommits = [ca] → b.pushedCommits = [cb] → ca ≠ cb) := by
  refine ⟨roster.map (assignmentOf student_subgroups tp.tree temp_proj_path), ?_, ?_, ?_, ?_⟩
  · simp only [post_assignment, htp]
    exact post_assignment_loop_ok student_subgroups tp.tree temp_proj_path runnerId roster hsub
  · exact List.length_map roster _
  · intro a ha
    rcases List.mem_map.mp ha with ⟨s, hs, rfl⟩
    have := hsub s hs
    rcases Option.isSome_iff_exists.mp this with ⟨g, hg⟩
    refine ⟨_, assignmentOf_pushedCommits student_subgroups tp.tree temp_proj_path s g hg,
      rfl, rfl, rfl, rfl⟩
  · rw [List.pairwise_map]
    refine hdist.imp_of_mem ?_
    intro a b ha hb hne ca cb hca hcb
    rcases Option.isSome_iff_exists.mp (hsub a ha) with ⟨ga, hga⟩
    rcases Option.isSome_iff_exists.mp (hsub b hb) with ⟨gb, hgb⟩
    rw [assignmentOf_pushedCommits student_subgroups tp.tree temp_proj_path a ga hga] at hca
    rw [assignmentOf_pushedCommits student_subgroups tp.tree temp_proj_path b gb hgb] at hcb
    simp only [List.cons.injEq, and_true] at hca hcb
    intro hcontra
    apply hne
    apply initialCommitMsg_inj temp_proj_path
    have : ca.message = cb.message := by rw [hcontra]
    rw [← hca, ← hcb] at this
    simpa using this

/-- Witness for C3: two students, both subgroups present, template `"hw1"`
found — the fan-out yields two single-root-commit projects with distinct
initial commits. -/
theorem post_assignment_fanout_correct_witness :
    ∃ created : List CreatedAssignment,
      (post_assignment [⟨"Ada", "Lovelace", "ada"⟩, ⟨"Ben", "Bitdiddle", "ben"⟩]
        [⟨"hw1", "T"⟩] [⟨"Ada Lovelace", 1⟩, ⟨"Ben Bitdiddle", 2⟩] "hw1" "9").2 =
          .ok created ∧
      created.length = 2 ∧
      (∀ a ∈ created, ∃ c : Commit, a.pushedCommits = [c] ∧ c.parents = [] ∧
        c.author = _get_git_commit_signature ∧ c.committer = _get_git_commit_signature ∧
        c.tree = "T") ∧
      created.Pairwise (fun a b => ∀ ca cb : Commit,
        a.pushedCommits = [ca] → b.pushedCommits = [cb] → ca ≠ cb) :=
  post_assignment_fanout_correct
    [⟨"Ada", "Lovelace", "ada"⟩, ⟨"Ben", "Bitdiddle", "ben"⟩]
    [⟨"hw1", "T"⟩] [⟨"Ada Lovelace", 1⟩, ⟨"Ben Bitdiddle", 2⟩] "hw1" "9"
    ⟨"hw1", "T"⟩ rfl (by decide) (by decide)

end GCM
